import Mathlib

/-!
# Verification of the libco-oop `Context` class

A shallow embedding of `src/src/core/context.cpp` and
`src/include/libco_oop/context.h`.

Pointers (`void*`) are modelled as `Nat`, with `0` standing for `nullptr`.
The architecture-specific assembly leaf functions
(`libco_oop_context_save` / `_restore` / `_swap`,
`libco_oop_is_stack_aligned`, `libco_oop_align_stack_pointer`) are not part
of the sources; they are modelled from the spec where so marked.  The
register contents the save primitive stores are passed in as an explicit
`captured` argument, and the two-valued return discriminator of the save
primitive as an explicit `resumed` flag.
-/

namespace libco_oop

/-- `enum class ContextMode` from `context.h`: MINIMAL / COMPLETE. -/
inductive ContextMode where
  | MINIMAL
  | COMPLETE
deriving DecidableEq, Repr

/-- `struct ContextConfig` from `context.h`. -/
structure ContextConfig where
  mode : ContextMode := ContextMode.COMPLETE
  save_fpu : Bool := true
  enable_debugging : Bool := false
deriving DecidableEq, Repr

/-- `struct RegisterState` from `context.h` (x86_64 layout).  All pointer
fields are `Nat` addresses with `0 = nullptr`; `fpucw`/`mxcsr` are the
FPU/SSE control words. -/
structure RegisterState where
  r12 : Nat
  r13 : Nat
  r14 : Nat
  r15 : Nat
  rip : Nat
  rsp : Nat
  rbx : Nat
  rbp : Nat
  fpucw : Nat
  mxcsr : Nat
deriving DecidableEq, Repr

/-- `std::memset(&registers_, 0, sizeof(registers_))`: the all-zero block. -/
def zeroRegisterState : RegisterState :=
  { r12 := 0, r13 := 0, r14 := 0, r15 := 0, rip := 0, rsp := 0,
    rbx := 0, rbp := 0, fpucw := 0, mxcsr := 0 }

/-- Modelled from the spec: the assembly leaf `libco_oop_is_stack_aligned`
(not in the sources) tests 16-byte alignment of a pointer. -/
def libco_oop_is_stack_aligned (sp : Nat) : Bool :=
  sp % 16 == 0

/-- Modelled from the spec: the assembly leaf `libco_oop_align_stack_pointer`
(not in the sources) rounds a pointer down to the required 16-byte
alignment. -/
def libco_oop_align_stack_pointer (sp : Nat) : Nat :=
  sp - sp % 16

namespace context_utils

/-- `context_utils::is_stack_aligned` from `context.cpp`: null is reported
unaligned, otherwise defer to the assembly leaf. -/
def is_stack_aligned (sp : Nat) : Bool :=
  if sp = 0 then false else libco_oop_is_stack_aligned sp

/-- `context_utils::align_stack_pointer` from `context.cpp`: null maps to
null, otherwise defer to the assembly leaf. -/
def align_stack_pointer (sp : Nat) : Nat :=
  if sp = 0 then 0 else libco_oop_align_stack_pointer sp

end context_utils

/-- `Context` from `context.h`: one register-state block, one configuration
snapshot, the validity flag, and the switch counter. -/
structure Context where
  registers_ : RegisterState
  config_ : ContextConfig
  is_valid_ : Bool
  switch_count_ : Nat
deriving DecidableEq, Repr

/-- `Context::initialize_registers` from `context.cpp`: zero the block and,
when `save_fpu` is set, apply the standard FPU/SSE control-word defaults
`0x037F` / `0x1F80`. -/
def init_registers (config : ContextConfig) : RegisterState :=
  if config.save_fpu then
    { zeroRegisterState with fpucw := 0x037F, mxcsr := 0x1F80 }
  else
    zeroRegisterState

/-- `Context::Context(const ContextConfig&)` from `context.cpp`: store the
configuration, clear validity and the counter, run the register
initialization. -/
def Context.create (config : ContextConfig) : Context :=
  { registers_ := init_registers config
    config_ := config
    is_valid_ := false
    switch_count_ := 0 }

/-- `Context::validate_state` from `context.cpp`: validity flag set, stack
pointer non-null and 16-byte aligned, and instruction pointer non-null once
any switch has occurred. -/
def Context.validate_state (c : Context) : Bool :=
  if !c.is_valid_ then false
  else if c.registers_.rsp == 0 then false
  else if !(context_utils.is_stack_aligned c.registers_.rsp) then false
  else if c.registers_.rip == 0 && decide (c.switch_count_ > 0) then false
  else true

/-- `Context::is_valid` from `context.cpp`: `is_valid_ && validate_state()`. -/
def Context.is_valid (c : Context) : Bool :=
  c.is_valid_ && c.validate_state

/-- `Context::reset` from `context.cpp`: zero the register block, clear
validity, zero the counter, rerun register initialization. -/
def Context.reset (c : Context) : Context :=
  let c1 : Context :=
    { c with registers_ := zeroRegisterState, is_valid_ := false, switch_count_ := 0 }
  { c1 with registers_ := init_registers c1.config_ }

/-- `Context::get_stack_pointer` from `context.cpp`. -/
def Context.get_stack_pointer (c : Context) : Nat :=
  c.registers_.rsp

/-- `Context::get_instruction_pointer` from `context.cpp`. -/
def Context.get_instruction_pointer (c : Context) : Nat :=
  c.registers_.rip

/-- `Context::get_switch_count` from `context.cpp`. -/
def Context.get_switch_count (c : Context) : Nat :=
  c.switch_count_

/-- `Context::get_config` from `context.cpp`. -/
def Context.get_config (c : Context) : ContextConfig :=
  c.config_

/-- `Context::set_stack_pointer` from `context.cpp`: reject null; round a
misaligned pointer down; store it; if the context was invalid, the flag
becomes the non-nullness of the stored instruction pointer.  Returns the
updated context and the `bool` result. -/
def Context.set_stack_pointer (c : Context) (sp : Nat) : Context × Bool :=
  if sp = 0 then (c, false)
  else
    let sp' := if !(context_utils.is_stack_aligned sp) then
                 context_utils.align_stack_pointer sp
               else sp
    let c1 : Context := { c with registers_ := { c.registers_ with rsp := sp' } }
    let c2 : Context :=
      if !c1.is_valid_ then
        { c1 with is_valid_ := c1.registers_.rip != 0 }
      else c1
    (c2, true)

/-- `Context::set_instruction_pointer` from `context.cpp`: reject null;
store the pointer; if the context was invalid, the flag becomes the
non-nullness of the stored stack pointer. -/
def Context.set_instruction_pointer (c : Context) (ip : Nat) : Context × Bool :=
  if ip = 0 then (c, false)
  else
    let c1 : Context := { c with registers_ := { c.registers_ with rip := ip } }
    let c2 : Context :=
      if !c1.is_valid_ then
        { c1 with is_valid_ := c1.registers_.rsp != 0 }
      else c1
    (c2, true)

/-- `Context::save` from `context.cpp`.  The assembly leaf
`libco_oop_context_save` is modelled from the spec: on first capture
(`resumed = false`, the leaf returned 0) it stores the caller's current
registers — passed here as `captured` — into the block, and the wrapper
marks the context valid; on a resumed return (`resumed = true`, the leaf
returned 1) the wrapper increments the switch counter.  Both paths return
`true`. -/
def Context.save (c : Context) (captured : RegisterState) (resumed : Bool) :
    Context × Bool :=
  if !resumed then
    ({ c with registers_ := captured, is_valid_ := true }, true)
  else
    ({ c with switch_count_ := c.switch_count_ + 1 }, true)

/-- Outcome of `Context::restore` from `context.cpp`: either the process
terminates (`std::terminate`), or control transfers via the restore
primitive, invoked with this context's register block and its configured
`save_fpu` flag. -/
inductive RestoreOutcome where
  | terminate
  | transfer (regs : RegisterState) (save_fpu : Bool)
deriving DecidableEq, Repr

/-- `Context::restore` from `context.cpp`: terminate unless
`is_valid_ && validate_state()`; otherwise invoke
`libco_oop_context_restore(&registers_, config_.save_fpu)`. -/
def Context.restore (c : Context) : RestoreOutcome :=
  if !c.is_valid_ || !c.validate_state then
    RestoreOutcome.terminate
  else
    RestoreOutcome.transfer c.registers_ c.config_.save_fpu

/-- `Context::swap` from `context.cpp`, viewed over a whole suspend/resume
round (synchronous return path).  Fails (returning `false` and leaving both
contexts untouched, primitive not invoked) unless both contexts validate.
Otherwise the primitive `libco_oop_context_swap` — modelled from the spec:
it stores the caller's current registers, passed here as `captured`, into
this block and jumps into `other` — is invoked with the effective FPU flag
`config_.save_fpu && other.config_.save_fpu`; on the synchronous return
path the wrapper increments this context's counter and marks it valid.
Returns `(result, this, other, fpu flag passed to the primitive)`. -/
def Context.swap (a b : Context) (captured : RegisterState) :
    Bool × Context × Context × Option Bool :=
  if !a.validate_state || !b.validate_state then
    (false, a, b, none)
  else
    let save_fpu := a.config_.save_fpu && b.config_.save_fpu
    let a1 : Context := { a with registers_ := captured }
    (true, { a1 with switch_count_ := a1.switch_count_ + 1, is_valid_ := true },
     b, some save_fpu)

/-- Machine-level view of the first half of `Context::swap` from
`context.cpp`: validation of both contexts, then the swap primitive —
modelled from the spec: it stores the caller's current CPU registers `cpu`
into this block and loads `other`'s block into the CPU.  Returns the
suspended `this` and the register contents the CPU continues with, or
`none` when validation fails (no state is touched and `swap` returns
`false` synchronously). -/
def Context.swapSuspend (a b : Context) (cpu : RegisterState) :
    Option (Context × RegisterState) :=
  if !a.validate_state || !b.validate_state then none
  else some ({ a with registers_ := cpu }, b.registers_)

/-- Machine-level view of the second half of `Context::swap` from
`context.cpp`: the code after the primitive call, executed when control is
later swapped back into this block.  Increments the switch counter, marks
the context valid, returns `true`. -/
def Context.swapResume (a : Context) : Context × Bool :=
  ({ a with switch_count_ := a.switch_count_ + 1, is_valid_ := true }, true)

/-- `Context::Context(Context&&)` from `context.cpp`: the destination takes
the block, configuration, flag and counter; the source keeps its block but
is invalidated with a zero counter.  Returns `(destination, moved-from
source)`. -/
def Context.moveConstruct (other : Context) : Context × Context :=
  ({ registers_ := other.registers_, config_ := other.config_,
     is_valid_ := other.is_valid_, switch_count_ := other.switch_count_ },
   { other with is_valid_ := false, switch_count_ := 0 })

/-- `Context::operator=(Context&&)` from `context.cpp`, non-self case: the
destination's fields are overwritten with the source's; the source is
invalidated with a zero counter.  Returns `(destination, moved-from
source)`. -/
def Context.moveAssign (_dest other : Context) : Context × Context :=
  ({ registers_ := other.registers_, config_ := other.config_,
     is_valid_ := other.is_valid_, switch_count_ := other.switch_count_ },
   { other with is_valid_ := false, switch_count_ := 0 })

/-- One public `Context` operation, for reasoning about arbitrary call
sequences on a single context.  Capture-oracle arguments carry what the
save primitive would store. -/
inductive Op where
  | opSave (captured : RegisterState) (resumed : Bool)
  | opSwap (other : Context) (captured : RegisterState)
  | opReset
  | opSetSP (p : Nat)
  | opSetIP (p : Nat)
  | opRestore
  | opMovedFrom
  | opMoveAssignFrom (src : Context)
deriving Repr

/-- Apply one public operation to a context, keeping the component of each
embedded operation that describes this context's next state. -/
def applyOp (c : Context) : Op → Context
  | Op.opSave captured resumed => (c.save captured resumed).1
  | Op.opSwap other captured => (c.swap other captured).2.1
  | Op.opReset => c.reset
  | Op.opSetSP p => (c.set_stack_pointer p).1
  | Op.opSetIP p => (c.set_instruction_pointer p).1
  | Op.opRestore => c
  | Op.opMovedFrom => (Context.moveConstruct c).2
  | Op.opMoveAssignFrom src => (Context.moveAssign c src).1

/-- Apply a sequence of public operations, first to last. -/
def applyOps (c : Context) (ops : List Op) : Context :=
  ops.foldl applyOp c

/-- The internal-state property claimed as an invariant: whenever the
validity flag is set, the stored stack pointer is non-null. -/
def flagImpliesSP (c : Context) : Bool :=
  !c.is_valid_ || c.registers_.rsp != 0

/-- Side conditions under which an operation preserves `flagImpliesSP`: a
capture stores the running thread's stack pointer, which is non-null, and a
stack-pointer argument must not round down to null (i.e. must be at least
the 16-byte alignment). -/
def opOK : Op → Bool
  | Op.opSave captured _ => captured.rsp != 0
  | Op.opSwap _ captured => captured.rsp != 0
  | Op.opSetSP p => 16 ≤ p
  | Op.opMoveAssignFrom src => flagImpliesSP src
  | _ => true

/-! ## Shared helper lemmas and concrete contexts -/

/-- `is_valid()` coincides with `validate_state()`, because the latter
already begins by checking the validity flag. -/
lemma is_valid_eq_validate (c : Context) : c.is_valid = c.validate_state := by
  cases h : c.is_valid_ <;>
    simp [Context.is_valid, Context.validate_state, h]

/-- Unfolded characterisation of `validate_state`. -/
lemma validate_state_iff (c : Context) :
    c.validate_state = true ↔
      c.is_valid_ = true ∧ c.registers_.rsp ≠ 0 ∧ c.registers_.rsp % 16 = 0 ∧
        (c.registers_.rip ≠ 0 ∨ c.switch_count_ = 0) := by
  simp only [Context.validate_state, context_utils.is_stack_aligned,
    libco_oop_is_stack_aligned]
  split_ifs with h1 h2 h3 h4 <;>
    simp_all <;> omega

/-- `set_stack_pointer` on a non-null argument: the stored stack pointer is
the 16-byte round-down (which is the identity on aligned input), the flag
absorbs the non-nullness of the stored instruction pointer, and the call
returns `true`. -/
lemma set_stack_pointer_nonnull (c : Context) (sp : Nat) (h : sp ≠ 0) :
    c.set_stack_pointer sp =
      ({ c with
          registers_ := { c.registers_ with rsp := sp - sp % 16 }
          is_valid_ := c.is_valid_ || c.registers_.rip != 0 },
       true) := by
  simp only [Context.set_stack_pointer, context_utils.is_stack_aligned,
    context_utils.align_stack_pointer, libco_oop_is_stack_aligned,
    libco_oop_align_stack_pointer, if_neg h]
  have hsub : sp % 16 = 0 → sp - sp % 16 = sp := by omega
  cases hv : c.is_valid_ <;> cases hm : sp % 16 == 0 <;>
    simp_all

/-- `set_instruction_pointer` on a non-null argument. -/
lemma set_instruction_pointer_nonnull (c : Context) (ip : Nat) (h : ip ≠ 0) :
    c.set_instruction_pointer ip =
      ({ c with
          registers_ := { c.registers_ with rip := ip }
          is_valid_ := c.is_valid_ || c.registers_.rsp != 0 },
       true) := by
  simp only [Context.set_instruction_pointer, if_neg h]
  cases hv : c.is_valid_ <;> simp_all

/-- The 16-byte round-down is aligned and does not exceed its input. -/
lemma round_down_aligned (p : Nat) : (p - p % 16) % 16 = 0 ∧ p - p % 16 ≤ p := by
  have h := Nat.div_add_mod p 16
  have h2 : p - p % 16 = 16 * (p / 16) := by omega
  rw [h2]
  exact ⟨Nat.mul_mod_right 16 _, by omega⟩

/-- A concrete valid context used by witnesses: flag set, aligned non-null
stack pointer, non-null instruction pointer. -/
def validCtx : Context :=
  { registers_ := { zeroRegisterState with rip := 256, rsp := 16 }
    config_ := {}
    is_valid_ := true
    switch_count_ := 0 }

/-! ## Claims -/

/-- C1: if `a.is_valid()` or `b.is_valid()` is false, `a.swap(b)` returns
`false`, the low-level primitive is not invoked, and neither `a`'s nor
`b`'s state (register block, validity flag, switch counter, configuration)
is changed. -/
theorem C1_swap_invalid_is_noop (a b : Context) (captured : RegisterState)
    (h : a.is_valid = false ∨ b.is_valid = false) :
    a.swap b captured = (false, a, b, none) := by
  rw [is_valid_eq_validate, is_valid_eq_validate] at h
  unfold Context.swap
  rcases h with h | h <;> simp [h]

theorem C1_swap_invalid_is_noop_witness :
    Context.swap (Context.create {}) validCtx zeroRegisterState =
      (false, Context.create {}, validCtx, none) :=
  C1_swap_invalid_is_noop _ _ _ (Or.inl (by decide))

/-- C2: `restore()` on a context with `is_valid() == false` terminates the
process; when `is_valid() == true` the termination branch is not taken and
the restore primitive is invoked with this context's register block and its
configured `save_fpu` flag. -/
theorem C2_restore_terminates_or_transfers (c : Context) :
    (c.is_valid = false → c.restore = RestoreOutcome.terminate) ∧
    (c.is_valid = true →
      c.restore = RestoreOutcome.transfer c.registers_ c.config_.save_fpu) := by
  unfold Context.restore Context.is_valid
  constructor <;> intro h
  · rcases Bool.and_eq_false_iff.mp h with h1 | h1 <;> simp [h1]
  · rcases Bool.and_eq_true_iff.mp h with ⟨h1, h2⟩
    simp [h1, h2]

theorem C2_restore_terminates_or_transfers_witness :
    (Context.create {}).restore = RestoreOutcome.terminate ∧
    validCtx.restore =
      RestoreOutcome.transfer validCtx.registers_ validCtx.config_.save_fpu :=
  ⟨(C2_restore_terminates_or_transfers _).1 (by decide),
   (C2_restore_terminates_or_transfers _).2 (by decide)⟩

/-- C3: for valid `a` and `b`, `a.swap(b)` invokes the primitive with the
effective FPU flag `a.save_fpu AND b.save_fpu`; on the synchronous return
path it bumps `a`'s switch counter by exactly 1, marks `a` valid, returns
`true`, and leaves `b` untouched. -/
theorem C3_swap_valid_effect (a b : Context) (captured : RegisterState)
    (ha : a.is_valid = true) (hb : b.is_valid = true) :
    a.swap b captured =
      (true,
       { a with
          registers_ := captured
          switch_count_ := a.switch_count_ + 1
          is_valid_ := true },
       b,
       some (a.config_.save_fpu && b.config_.save_fpu)) ∧
    (a.swap b captured).2.1.get_switch_count = a.get_switch_count + 1 := by
  rw [is_valid_eq_validate] at ha hb
  unfold Context.swap
  simp [ha, hb, Context.get_switch_count]

/-- A context freshly `save()`d on its first-capture path, used to realise
the scenario in C3: valid with switch count 0. -/
def freshSavedX : Context :=
  ((Context.create {}).save { zeroRegisterState with rip := 256, rsp := 16 } false).1

/-- Second freshly `save()`d context for the C3 scenario. -/
def freshSavedY : Context :=
  ((Context.create {}).save { zeroRegisterState with rip := 512, rsp := 32 } false).1

theorem C3_swap_valid_effect_witness :
    freshSavedX.is_valid = true ∧ freshSavedX.get_switch_count = 0 ∧
    freshSavedY.is_valid = true ∧ freshSavedY.get_switch_count = 0 ∧
    (freshSavedX.swap freshSavedY zeroRegisterState).1 = true ∧
    (freshSavedX.swap freshSavedY zeroRegisterState).2.1.get_switch_count = 1 := by
  have h := C3_swap_valid_effect freshSavedX freshSavedY zeroRegisterState
    (by decide) (by decide)
  refine ⟨by decide, by decide, by decide, by decide, ?_, ?_⟩
  · rw [h.1]
  · rw [h.2]; decide

/-- C4: a freshly created context and a reset context coincide for every
configuration: `is_valid()` false, switch count 0, register block all zero
except that with `save_fpu` on, the FPU control word and MXCSR carry the
non-zero architecture defaults `0x037F` and `0x1F80`. -/
theorem C4_create_eq_reset (cfg : ContextConfig) (c : Context) :
    (Context.create cfg).is_valid = false ∧
    (Context.create cfg).get_switch_count = 0 ∧
    (Context.create cfg).registers_ =
      { zeroRegisterState with
          fpucw := if cfg.save_fpu then 0x037F else 0
          mxcsr := if cfg.save_fpu then 0x1F80 else 0 } ∧
    ((0x037F : Nat) ≠ 0 ∧ (0x1F80 : Nat) ≠ 0) ∧
    c.reset = Context.create c.config_ := by
  refine ⟨?_, rfl, ?_, by omega, ?_⟩
  · simp [Context.is_valid, Context.create]
  · cases h : cfg.save_fpu <;>
      simp [Context.create, init_registers, h, zeroRegisterState]
  · cases h : c.config_.save_fpu <;>
      simp [Context.reset, Context.create, init_registers, h]

/-- C5: `set_stack_pointer(null)` returns `false` and leaves the context
unchanged; for non-null `p` it returns `true` and the stored stack pointer
is 16-byte aligned, at most `p`, equal to `p` when `p` is aligned and to
the round-down of `p` otherwise. -/
theorem C5_set_stack_pointer_spec (c : Context) (p : Nat) :
    c.set_stack_pointer 0 = (c, false) ∧
    (p ≠ 0 →
      (c.set_stack_pointer p).2 = true ∧
      (c.set_stack_pointer p).1.get_stack_pointer % 16 = 0 ∧
      (c.set_stack_pointer p).1.get_stack_pointer ≤ p ∧
      (p % 16 = 0 → (c.set_stack_pointer p).1.get_stack_pointer = p) ∧
      (p % 16 ≠ 0 →
        (c.set_stack_pointer p).1.get_stack_pointer = p - p % 16)) := by
  refine ⟨by simp [Context.set_stack_pointer], fun hp => ?_⟩
  rw [set_stack_pointer_nonnull c p hp]
  simp only [Context.get_stack_pointer]
  rcases round_down_aligned p with ⟨h1, h2⟩
  exact ⟨trivial, h1, h2, fun h0 => by omega, fun _ => trivial⟩

theorem C5_set_stack_pointer_spec_witness :
    (validCtx.set_stack_pointer 24).2 = true ∧
    (validCtx.set_stack_pointer 24).1.get_stack_pointer = 16 := by
  have h := (C5_set_stack_pointer_spec validCtx 24).2 (by decide)
  exact ⟨h.1, by rw [h.2.2.2.2 (by decide)]⟩

/-- C6 counterexample: `set_stack_pointer(8)` (a non-null pointer) rounds
down to the null stored value 0, so following it with
`set_instruction_pointer(256)` does not make the context valid, although
both setters returned `true`; the claim fails for non-null pointers below
the 16-byte alignment. -/
theorem C6_counterexample :
    ((Context.create {}).set_stack_pointer 8).2 = true ∧
    (((Context.create {}).set_stack_pointer 8).1.set_instruction_pointer 256).2
      = true ∧
    (((Context.create {}).set_stack_pointer 8).1.set_instruction_pointer 256).1.is_valid
      = false := by decide

/-- C6 (amended): from an invalid context with zero switch count, setting a
stack pointer that does not round down to null (`16 ≤ sp`) and a non-null
instruction pointer — in either order — yields `is_valid() == true` with
switch count still 0; either setter alone, with the other stored pointer
still null, leaves the context invalid. -/
theorem C6_seeding_path (c : Context) (sp ip : Nat)
    (hflag : c.is_valid_ = false) (hcount : c.switch_count_ = 0)
    (hsp : 16 ≤ sp) (hip : ip ≠ 0) :
    (((c.set_stack_pointer sp).1.set_instruction_pointer ip).1.is_valid = true ∧
     ((c.set_stack_pointer sp).1.set_instruction_pointer ip).1.get_switch_count
       = 0) ∧
    (((c.set_instruction_pointer ip).1.set_stack_pointer sp).1.is_valid = true ∧
     ((c.set_instruction_pointer ip).1.set_stack_pointer sp).1.get_switch_count
       = 0) ∧
    (c.registers_.rip = 0 → (c.set_stack_pointer sp).1.is_valid = false) ∧
    (c.registers_.rsp = 0 → (c.set_instruction_pointer ip).1.is_valid = false) := by
  have hsp0 : sp ≠ 0 := by omega
  have hrd : (sp - sp % 16) % 16 = 0 ∧ sp - sp % 16 ≤ sp := round_down_aligned sp
  have hrd0 : sp - sp % 16 ≠ 0 := by
    have := Nat.mod_lt sp (show 0 < 16 by omega)
    omega
  refine ⟨?_, ?_, ?_, ?_⟩
  · rw [set_stack_pointer_nonnull c sp hsp0]
    rw [set_instruction_pointer_nonnull _ ip hip]
    rw [is_valid_eq_validate]
    simp only [Context.get_switch_count]
    constructor
    · rw [validate_state_iff]
      refine ⟨by simp [hrd0], hrd0, hrd.1, Or.inl hip⟩
    · exact hcount
  · rw [set_instruction_pointer_nonnull c ip hip]
    rw [set_stack_pointer_nonnull _ sp hsp0]
    rw [is_valid_eq_validate]
    simp only [Context.get_switch_count]
    constructor
    · rw [validate_state_iff]
      refine ⟨by simp [hip], hrd0, hrd.1, Or.inl hip⟩
    · exact hcount
  · intro h0
    rw [set_stack_pointer_nonnull c sp hsp0, is_valid_eq_validate]
    rw [Bool.eq_false_iff]
    intro hcon
    rcases (validate_state_iff _).mp hcon with ⟨hf, -, -, -⟩
    simp [hflag, h0] at hf
  · intro h0
    rw [set_instruction_pointer_nonnull c ip hip, is_valid_eq_validate]
    rw [Bool.eq_false_iff]
    intro hcon
    rcases (validate_state_iff _).mp hcon with ⟨hf, -, -, -⟩
    simp [hflag, h0] at hf

theorem C6_seeding_path_witness :
    (((Context.create {}).set_stack_pointer 32).1.set_instruction_pointer
        256).1.is_valid = true ∧
    (((Context.create {}).set_stack_pointer 32).1.set_instruction_pointer
        256).1.get_switch_count = 0 :=
  (C6_seeding_path (Context.create {}) 32 256 (by decide) (by decide)
    (by decide) (by decide)).1

/-- C7: `save()` on the first-capture path returns `true` and leaves the
context valid with non-null stack and instruction pointers (the primitive
stored the running thread's registers, which are non-null and aligned); on
the resumed-return path it bumps the switch counter by exactly 1 and
returns `true`. -/
theorem C7_save_paths (c : Context) (captured : RegisterState)
    (hrsp : captured.rsp ≠ 0) (hali : captured.rsp % 16 = 0)
    (hrip : captured.rip ≠ 0) :
    ((c.save captured false).2 = true ∧
     (c.save captured false).1.is_valid = true ∧
     (c.save captured false).1.get_stack_pointer ≠ 0 ∧
     (c.save captured false).1.get_instruction_pointer ≠ 0) ∧
    ((c.save captured true).2 = true ∧
     (c.save captured true).1.get_switch_count = c.get_switch_count + 1) := by
  unfold Context.save
  refine ⟨⟨rfl, ?_, hrsp, hrip⟩, rfl, rfl⟩
  rw [is_valid_eq_validate, validate_state_iff]
  exact ⟨rfl, hrsp, hali, Or.inl hrip⟩

theorem C7_save_paths_witness :
    (((Context.create {}).save { zeroRegisterState with rip := 256, rsp := 16 }
        false).1.is_valid = true) ∧
    (((Context.create {}).save { zeroRegisterState with rip := 256, rsp := 16 }
        true).1.get_switch_count = 1) := by
  have h := C7_save_paths (Context.create {})
    { zeroRegisterState with rip := 256, rsp := 16 }
    (by decide) (by decide) (by decide)
  exact ⟨h.1.2.1, by rw [h.2.2]; decide⟩

/-- C8: move construction and move assignment transfer register block,
configuration, validity flag and switch counter to the destination; the
moved-from source afterwards has `is_valid() == false` and switch count 0. -/
theorem C8_move_transfers_and_invalidates (dest other : Context) :
    ((Context.moveConstruct other).1.registers_ = other.registers_ ∧
     (Context.moveConstruct other).1.get_config = other.get_config ∧
     (Context.moveConstruct other).1.is_valid = other.is_valid ∧
     (Context.moveConstruct other).1.get_switch_count
       = other.get_switch_count) ∧
    ((Context.moveConstruct other).2.is_valid = false ∧
     (Context.moveConstruct other).2.get_switch_count = 0) ∧
    Context.moveAssign dest other = Context.moveConstruct other := by
  refine ⟨⟨rfl, rfl, rfl, rfl⟩, ⟨?_, rfl⟩, rfl⟩
  simp [Context.moveConstruct, Context.is_valid]

/-- C9: round trip.  `a.swap(b)` suspends `a` holding exactly the CPU
registers `cpu0` of the swap moment; any later swap back into `a` loads
exactly those contents into the CPU, and the resumed `a` differs from the
suspended one only in its switch counter, which is one more than before
the original swap (the configuration is untouched and `swap` reports
`true`). -/
theorem C9_swap_round_trip (a b c a1 c1 : Context)
    (cpu0 cpu1 cpuB cpuR : RegisterState)
    (h1 : a.swapSuspend b cpu0 = some (a1, cpuB))
    (h2 : c.swapSuspend a1 cpu1 = some (c1, cpuR)) :
    cpuR = cpu0 ∧
    a1.swapResume.1 = { a1 with switch_count_ := a1.switch_count_ + 1 } ∧
    a1.swapResume.1.registers_ = cpu0 ∧
    a1.swapResume.1.get_switch_count = a.get_switch_count + 1 ∧
    a1.swapResume.1.get_config = a.get_config ∧
    a1.swapResume.2 = true := by
  unfold Context.swapSuspend at h1 h2
  split at h1
  next => exact absurd h1 (by simp)
  next hg1 =>
    rw [Option.some.injEq, Prod.mk.injEq] at h1
    rcases h1 with ⟨ha1, -⟩
    split at h2
    next => exact absurd h2 (by simp)
    next hg2 =>
      rw [Option.some.injEq, Prod.mk.injEq] at h2
      rcases h2 with ⟨-, hR⟩
      simp only [Bool.or_eq_true, Bool.not_eq_true', not_or,
        Bool.not_eq_false] at hg1
      have haflag : a.is_valid_ = true := ((validate_state_iff a).mp hg1.1).1
      subst ha1
      refine ⟨hR ▸ rfl, ?_, rfl, rfl, rfl, rfl⟩
      unfold Context.swapResume
      rw [haflag]

/-- Concrete CPU register contents at the moment of the C9 witness's
original swap call. -/
def rtCpu0 : RegisterState :=
  { zeroRegisterState with rbx := 7, rsp := 48, rip := 300 }

/-- Concrete CPU register contents at the moment of the C9 witness's swap
back. -/
def rtCpu1 : RegisterState :=
  { zeroRegisterState with rbx := 9, rsp := 64, rip := 400 }

/-- Second valid context for the C9 witness. -/
def rtCtxB : Context :=
  { registers_ := { zeroRegisterState with rip := 512, rsp := 32 }
    config_ := {}
    is_valid_ := true
    switch_count_ := 0 }

/-- Third valid context for the C9 witness (the one that swaps back). -/
def rtCtxC : Context :=
  { registers_ := { zeroRegisterState with rip := 768, rsp := 80 }
    config_ := {}
    is_valid_ := true
    switch_count_ := 3 }

theorem C9_swap_round_trip_witness :
    rtCpu0 = rtCpu0 ∧
    ({ validCtx with registers_ := rtCpu0 } : Context).swapResume.1.get_switch_count
      = validCtx.get_switch_count + 1 := by
  have h := C9_swap_round_trip validCtx rtCtxB rtCtxC
    { validCtx with registers_ := rtCpu0 }
    { rtCtxC with registers_ := rtCpu1 }
    rtCpu0 rtCpu1 rtCtxB.registers_ rtCpu0
    (by decide) (by decide)
  exact ⟨h.1, h.2.2.2.1⟩

/-- C10 counterexample: from a fresh context,
`set_instruction_pointer(256)` followed by `set_stack_pointer(8)` stores
the round-down 0 (null) as the stack pointer yet sets the internal
validity flag, so a sequence of public operations can reach a state whose
flag is set while the stored stack pointer is null. -/
theorem C10_counterexample :
    (applyOps (Context.create {}) [Op.opSetIP 256, Op.opSetSP 8]).is_valid_
      = true ∧
    (applyOps (Context.create {}) [Op.opSetIP 256, Op.opSetSP 8]).registers_.rsp
      = 0 := by decide

/-- C10 (amended): the flag-implies-non-null-stack-pointer invariant is
preserved by every public operation provided each `set_stack_pointer`
argument does not round down to null (is at least 16), each capture stores
a non-null stack pointer, and each move-assignment source itself satisfies
the invariant; under these side conditions it holds after any sequence of
public operations. -/
theorem C10_flag_invariant (c : Context) (ops : List Op)
    (hc : flagImpliesSP c = true)
    (hops : ∀ op ∈ ops, opOK op = true) :
    flagImpliesSP (applyOps c ops) = true := by
  induction ops generalizing c with
  | nil => exact hc
  | cons op rest ih =>
    have hop : opOK op = true := hops op (List.mem_cons_self _ _)
    have hrest : ∀ o ∈ rest, opOK o = true :=
      fun o ho => hops o (List.mem_cons_of_mem _ ho)
    refine ih (applyOp c op) ?_ hrest
    clear ih hops hrest
    cases op with
    | opSave captured resumed =>
      cases resumed with
      | false =>
        simp only [applyOp, Context.save, Bool.not_false, reduceIte]
        simp only [opOK] at hop
        simp [flagImpliesSP, hop]
      | true =>
        simp only [applyOp, Context.save, Bool.not_true, reduceIte]
        simpa [flagImpliesSP] using hc
    | opSwap other captured =>
      simp only [applyOp, Context.swap]
      by_cases hg : (!c.validate_state || !other.validate_state) = true
      · simp only [hg, reduceIte]
        exact hc
      · simp only [hg, reduceIte]
        simp only [opOK] at hop
        simp [flagImpliesSP, hop]
    | opReset =>
      cases hf : c.config_.save_fpu <;>
        simp [applyOp, Context.reset, flagImpliesSP, init_registers, hf,
          zeroRegisterState]
    | opSetSP p =>
      simp only [opOK, decide_eq_true_eq] at hop
      have hp0 : p ≠ 0 := by omega
      rw [applyOp, set_stack_pointer_nonnull c p hp0]
      have : p - p % 16 ≠ 0 := by
        have := Nat.mod_lt p (show 0 < 16 by omega)
        omega
      simp [flagImpliesSP, this]
    | opSetIP p =>
      by_cases hp0 : p = 0
      · subst hp0
        simp only [applyOp, Context.set_instruction_pointer, reduceIte]
        exact hc
      · rw [applyOp, set_instruction_pointer_nonnull c p hp0]
        simp only [flagImpliesSP] at hc ⊢
        cases hv : c.is_valid_ <;> simp_all
    | opRestore =>
      exact hc
    | opMovedFrom =>
      simp [applyOp, Context.moveConstruct, flagImpliesSP]
    | opMoveAssignFrom src =>
      simp only [opOK] at hop
      simpa [applyOp, Context.moveAssign, flagImpliesSP] using hop

theorem C10_flag_invariant_witness :
    flagImpliesSP
      (applyOps (Context.create {}) [Op.opSetSP 32, Op.opSetIP 256]) = true :=
  C10_flag_invariant (Context.create {}) [Op.opSetSP 32, Op.opSetIP 256]
    (by decide) (by decide)

end libco_oop
